import Mathlib

/-!
Shallow embedding of `src/convert_dictionaries.py`, a utility that converts
line-oriented "word frequency" text files into JSON arrays of
records with keys `w` (word) and `f` (frequency).

The embedding models, faithfully to CPython semantics where the script uses
builtins:
* `str.strip()` / `str.split()` with no arguments (Unicode whitespace);
* `int(str)` (optional sign, Unicode decimal digits, single underscores
  between digits);
* `json.dumps(entry, ensure_ascii=False, separators=(",", ":"))`;
* the line loop of `convert_txt_to_json` (1-based line numbers via
  `enumerate(f, 1)`, skip-and-warn on malformed lines);
* the output-writing loop (comma after every entry line but the last);
* the job loop of `main` (skip on missing source, uncaught exception on a
  failed write terminates the loop).

File I/O is modelled by an abstract filesystem record: a presence predicate,
the source's lines, and whether opening the destination for writing succeeds.
-/

namespace Pastiera

/-- Unicode whitespace as recognised by CPython's `str.strip()` / `str.split()`
(`Py_UNICODE_ISSPACE`): 0x09–0x0D, 0x1C–0x1F, space, 0x85, 0xA0, 0x1680,
0x2000–0x200A, 0x2028, 0x2029, 0x202F, 0x205F, 0x3000. -/
def isPySpace (c : Char) : Bool :=
  (0x09 ≤ c.toNat && c.toNat ≤ 0x0d) || c.toNat = 0x20 ||
  (0x1c ≤ c.toNat && c.toNat ≤ 0x1f) || c.toNat = 0x85 || c.toNat = 0xa0 ||
  c.toNat = 0x1680 || (0x2000 ≤ c.toNat && c.toNat ≤ 0x200a) ||
  c.toNat = 0x2028 || c.toNat = 0x2029 || c.toNat = 0x202f ||
  c.toNat = 0x205f || c.toNat = 0x3000

/-- Drop leading and trailing Python whitespace from a character list. -/
def stripChars (cs : List Char) : List Char :=
  ((cs.dropWhile isPySpace).reverse.dropWhile isPySpace).reverse

/-- Python `line.strip()` with no arguments. -/
def pyStrip (s : String) : String :=
  String.mk (stripChars s.toList)

/-- Helper for `pySplit`: accumulate the current (reversed) token while
scanning; whitespace runs separate tokens. -/
def splitWsAux : List Char → List Char → List (List Char)
  | [], acc => if acc = [] then [] else [acc.reverse]
  | c :: cs, acc =>
    if isPySpace c then
      if acc = [] then splitWsAux cs [] else acc.reverse :: splitWsAux cs []
    else splitWsAux cs (c :: acc)

/-- Python `line.split()` with no arguments: split on runs of whitespace,
discarding leading and trailing whitespace; never produces empty tokens. -/
def pySplit (s : String) : List String :=
  (splitWsAux s.toList []).map String.mk

/-- First code points of decimal-digit runs (Unicode category Nd, ten
consecutive code points each) recognised by CPython's `int()`: ASCII,
Arabic-Indic, Extended Arabic-Indic, NKo, Devanagari, Bengali, Gurmukhi,
Gujarati, Oriya, Tamil, Telugu, Kannada, Malayalam, Sinhala, Thai, Lao,
Tibetan, Myanmar (two runs), Khmer, Mongolian, Limbu, New Tai Lue, Tai Tham
(two runs), Balinese, Sundanese, Lepcha, Ol Chiki, Vai, Saurashtra, Kayah Li,
Javanese, Myanmar Tai Laing, Cham, Meetei Mayek, and Fullwidth digits.
(The basic-plane Nd runs; supplementary-plane runs are omitted from the
model.) -/
def ndRangeStarts : List Nat :=
  [0x30, 0x660, 0x6f0, 0x7c0, 0x966, 0x9e6, 0xa66, 0xae6, 0xb66, 0xbe6,
   0xc66, 0xce6, 0xd66, 0xde6, 0xe50, 0xed0, 0xf20, 0x1040, 0x1090, 0x17e0,
   0x1810, 0x1946, 0x19d0, 0x1a80, 0x1a90, 0x1b50, 0x1bb0, 0x1c40, 0x1c50,
   0xa620, 0xa8d0, 0xa900, 0xa9d0, 0xa9f0, 0xaa50, 0xabf0, 0xff10]

/-- Decimal value of a Unicode digit character, `none` for non-digits. -/
def digitVal (c : Char) : Option Nat :=
  match ndRangeStarts.find? (fun s => s ≤ c.toNat && c.toNat ≤ s + 9) with
  | some s => some (c.toNat - s)
  | none => none

/-- Digit loop of CPython's `int()` after the first digit: digits accumulate
base 10; a single underscore may stand between two digits (`prevDigit` is
false right after an underscore, and the string may not end there). -/
def pyDigitsLoop : List Char → Nat → Bool → Option Nat
  | [], acc, prevDigit => if prevDigit then some acc else none
  | c :: cs, acc, prevDigit =>
    match digitVal c with
    | some d => pyDigitsLoop cs (acc * 10 + d) true
    | none =>
      if c = '_' && prevDigit then pyDigitsLoop cs acc false else none

/-- The digit part of CPython's `int()`: at least one digit, underscores only
between digits. -/
def pyDigits : List Char → Option Nat
  | [] => none
  | c :: cs =>
    match digitVal c with
    | some d => pyDigitsLoop cs d true
    | none => none

/-- CPython `int(s)`: strip whitespace, optional single `+` or `-` sign,
then a digit sequence; `none` when `ValueError` would be raised. -/
def pyInt (s : String) : Option Int :=
  match stripChars s.toList with
  | '+' :: rest => (pyDigits rest).map Int.ofNat
  | '-' :: rest => (pyDigits rest).map (fun n => -(n : Int))
  | cs => (pyDigits cs).map Int.ofNat

/-- One dictionary record: `{"w": word, "f": frequency}` in the script. -/
structure Entry where
  w : String
  f : Int
deriving DecidableEq

/-- Outcome of the per-line portion of `convert_txt_to_json` for one line. -/
inductive LineResult where
  | blank
  | malformed (stripped : String)
  | invalidFreq (token : String)
  | entry (e : Entry)
deriving DecidableEq

/-- The loop body of `convert_txt_to_json` (lines 21–40 of the script):
strip the line, skip if empty, split on whitespace, require at least two
tokens, take the last token as the frequency and the space-join of the rest
as the word, and parse the frequency with `int()`. -/
def parseLine (line : String) : LineResult :=
  if pyStrip line = "" then .blank
  else if (pySplit (pyStrip line)).length < 2 then .malformed (pyStrip line)
  else
    match pyInt ((pySplit (pyStrip line)).getLastD "") with
    | some k =>
      .entry ⟨String.intercalate " " (pySplit (pyStrip line)).dropLast, k⟩
    | none => .invalidFreq ((pySplit (pyStrip line)).getLastD "")

/-- A warning or error condition reported by the script (its `print` calls on
rejected lines and missing sources). -/
inductive Condition where
  | malformedLine (lineNum : Nat) (content : String)
  | invalidFrequency (lineNum : Nat) (token : String)
  | sourceNotFound (path : String)
deriving DecidableEq

/-- Accumulated result of the reading loop: entries in input order and the
warnings in input order. -/
structure ParseState where
  entries : List Entry
  warnings : List Condition
deriving DecidableEq

/-- The reading loop of `convert_txt_to_json`, starting at line number `n`
(`enumerate(f, 1)` makes the top-level call start at 1): blank lines are
skipped silently, malformed lines and invalid frequencies produce a warning
and no entry, valid lines append an entry. -/
def processFrom : Nat → List String → ParseState
  | _, [] => ⟨[], []⟩
  | n, l :: ls =>
    let rest := processFrom (n + 1) ls
    match parseLine l with
    | .blank => rest
    | .malformed content =>
      ⟨rest.entries, .malformedLine n content :: rest.warnings⟩
    | .invalidFreq tok =>
      ⟨rest.entries, .invalidFrequency n tok :: rest.warnings⟩
    | .entry e => ⟨e :: rest.entries, rest.warnings⟩

/-- Parse a whole source file (given as its list of lines), with 1-based line
numbers. -/
def parseFile (lines : List String) : ParseState :=
  processFrom 1 lines

/-- Lowercase hex digit character, for JSON `\u00XX` escapes. -/
def hexDigitChar (n : Nat) : Char :=
  if n < 10 then Char.ofNat (0x30 + n) else Char.ofNat (0x61 + (n - 10))

/-- How `json.dumps(..., ensure_ascii=False)` renders one character inside a
string: `"` and `\` are escaped, control characters below 0x20 use the short
escapes or `\u00XX`, and every other character — all non-ASCII included — is
emitted literally. -/
def escapeChar (c : Char) : String :=
  if c = '"' then "\\\""
  else if c = '\\' then "\\\\"
  else if c.toNat = 0x08 then "\\b"
  else if c = '\t' then "\\t"
  else if c = '\n' then "\\n"
  else if c.toNat = 0x0c then "\\f"
  else if c = '\r' then "\\r"
  else if c.toNat < 0x20 then
    String.mk ['\\', 'u', '0', '0', hexDigitChar (c.toNat / 16),
               hexDigitChar (c.toNat % 16)]
  else String.singleton c

/-- JSON string-body escaping, character by character. -/
def jsonEscape (s : String) : String :=
  String.join (s.toList.map escapeChar)

/-- `json.dumps(entry, ensure_ascii=False, separators=(",", ":"))` for an
entry dict built as `{"w": word, "f": freq}`: insertion order of the keys is
preserved, there is no space after `:` or `,`, and the integer prints in
decimal with a leading `-` when negative. -/
def dumpsEntry (e : Entry) : String :=
  "\x7b\"w\":\"" ++ jsonEscape e.w ++ "\",\"f\":" ++ toString e.f ++ "\x7d"

/-- The writing loop of `convert_txt_to_json` (lines 45–51): entry `i` of
`total` is written indented by two spaces, with a trailing comma exactly when
`i < total - 1`, and a newline after every entry line. -/
def writeEntries : List Entry → Nat → Nat → String
  | [], _, _ => ""
  | e :: es, i, total =>
    (if i < total - 1 then "  " ++ dumpsEntry e ++ ",\n"
     else "  " ++ dumpsEntry e ++ "\n") ++ writeEntries es (i + 1) total

/-- The full destination-file content written by `convert_txt_to_json`
(lines 44–52): `[`, newline, the entry lines, `]`. -/
def writeJson (entries : List Entry) : String :=
  "[\n" ++ writeEntries entries 0 entries.length ++ "]"

/-- Entry produced by one line, if any. -/
def lineEntry (l : String) : Option Entry :=
  match parseLine l with
  | .entry e => some e
  | _ => none

/-- Destination content produced for a source file given as its lines. -/
def convertOutput (lines : List String) : String :=
  writeJson (parseFile lines).entries

/-- Modelled from the spec's formatting contract (§4.2): the block of entry
lines, each except the last followed by a comma and a newline, the last bare.
Used as the specification side of the formatting claim. -/
def commaJoinLines : List String → String
  | [] => ""
  | [s] => s
  | s :: rest => s ++ ",\n" ++ commaJoinLines rest

/-- Abstract filesystem for the job loop of `main`: which paths exist, the
lines a source file holds, and whether opening a path for writing succeeds. -/
structure FS where
  present : String → Bool
  read : String → List String
  writeOk : String → Bool

/-- `os.path.join` for the relative filenames used by the script. -/
def pathJoin (a b : String) : String :=
  a ++ "/" ++ b

/-- The base directory hard-coded in `main`. -/
def baseDir : String :=
  "app/src/main/assets/common/dictionaries"

/-- The static conversion table of `main`. -/
def conversions : List (String × String) :=
  [("en_50k.txt", "en_base.json"), ("fr_50k.txt", "fr_base.json"),
   ("pl_50k.txt", "pl_base.json"), ("de_50k.txt", "de_base.json"),
   ("ru_50k.txt", "ru_base.json"), ("pt_50k.txt", "pt_base.json"),
   ("es_50k.txt", "es_base.json")]

/-- Observable event of one executed job. -/
inductive RunEvent where
  | sourceNotFound (path : String)
  | wrote (path : String) (content : String)
deriving DecidableEq

/-- The job loop of `main` (lines 70–79): for each pair, if the source is
missing report it and continue; otherwise convert and write. A failed write
raises an uncaught exception, so the loop terminates there: the result is the
events of the jobs that ran, and `some path` when the run was aborted by a
write failure at `path`. -/
def runJobs (fs : FS) : List (String × String) → List RunEvent × Option String
  | [] => ([], none)
  | (src, dst) :: rest =>
    let srcPath := pathJoin baseDir src
    let dstPath := pathJoin baseDir dst
    if fs.present srcPath then
      if fs.writeOk dstPath then
        let r := runJobs fs rest
        (.wrote dstPath (convertOutput (fs.read srcPath)) :: r.1, r.2)
      else ([], some dstPath)
    else
      let r := runJobs fs rest
      (.sourceNotFound srcPath :: r.1, r.2)

/-- The whole program: run the static conversion table. -/
def mainRun (fs : FS) : List RunEvent × Option String :=
  runJobs fs conversions

/-- Filesystem used to exercise the write-failure path: every source exists
and holds one valid line, and only the first destination cannot be opened
for writing. -/
def fsWriteFail : FS :=
  ⟨fun _ => true, fun _ => ["a 1"],
   fun p => p != pathJoin baseDir ("en_base.json")⟩

/-- Filesystem used to exercise the missing-source path: the first source is
absent, everything else exists, reads give one valid line, all writes
succeed. -/
def fsNoSource : FS :=
  ⟨fun p => p != pathJoin baseDir ("en_50k.txt"), fun _ => ["le 100"],
   fun _ => true⟩

theorem pySplit_nil : pySplit ("") = [] := rfl

theorem parseLine_entry_of (l : String) (k : Int)
    (h2 : 2 ≤ (pySplit (pyStrip l)).length)
    (h3 : pyInt ((pySplit (pyStrip l)).getLastD ("")) = some k) :
    parseLine l =
      .entry ⟨String.intercalate (" ") (pySplit (pyStrip l)).dropLast, k⟩ := by
  have hne : ¬ pyStrip l = "" := by
    intro h
    rw [h] at h2
    have h0 : (pySplit ("")).length = 0 := rfl
    omega
  unfold parseLine
  rw [if_neg hne, if_neg (by omega), h3]

theorem parseLine_malformed_of (l : String)
    (h1 : pyStrip l ≠ "") (h2 : (pySplit (pyStrip l)).length < 2) :
    parseLine l = .malformed (pyStrip l) := by
  unfold parseLine
  rw [if_neg h1, if_pos h2]

theorem parseLine_invalidFreq_of (l : String)
    (h2 : 2 ≤ (pySplit (pyStrip l)).length)
    (h3 : pyInt ((pySplit (pyStrip l)).getLastD ("")) = none) :
    parseLine l = .invalidFreq ((pySplit (pyStrip l)).getLastD ("")) := by
  have hne : ¬ pyStrip l = "" := by
    intro h
    rw [h] at h2
    have h0 : (pySplit ("")).length = 0 := rfl
    omega
  unfold parseLine
  rw [if_neg hne, if_neg (by omega), h3]

theorem processFrom_entries (ls : List String) :
    ∀ n, (processFrom n ls).entries = ls.filterMap lineEntry := by
  induction ls with
  | nil => intro n; rfl
  | cons l ls ih =>
    intro n
    simp only [processFrom, List.filterMap_cons]
    cases h : parseLine l <;> simp [lineEntry, h, ih (n + 1)]

theorem processFrom_append (pre post : List String) :
    ∀ n, processFrom n (pre ++ post) =
      ⟨(processFrom n pre).entries ++
         (processFrom (n + pre.length) post).entries,
       (processFrom n pre).warnings ++
         (processFrom (n + pre.length) post).warnings⟩ := by
  induction pre with
  | nil =>
    intro n
    simp only [List.nil_append, List.length_nil, Nat.add_zero]
    rfl
  | cons l pre ih =>
    intro n
    have harith : n + 1 + pre.length = n + (pre.length + 1) := by omega
    simp only [List.cons_append, processFrom, List.length_cons]
    cases h : parseLine l <;>
      simp [h, ih (n + 1), harith]

theorem writeEntries_eq_commaJoin (es : List Entry) :
    ∀ i total, i + es.length = total → es ≠ [] →
      writeEntries es i total =
        commaJoinLines (es.map fun e => "  " ++ dumpsEntry e) ++ "\n" := by
  induction es with
  | nil =>
    intro i total h hne
    exact absurd rfl hne
  | cons e es ih =>
    intro i total h hne
    cases es with
    | nil =>
      have hnlt : ¬ i < total - 1 := by
        simp only [List.length_cons, List.length_nil] at h
        omega
      simp [writeEntries, commaJoinLines, hnlt, String.append_empty]
    | cons e2 es2 =>
      have hlt : i < total - 1 := by
        simp only [List.length_cons] at h
        omega
      have ih2 := ih (i + 1) total
        (by simp only [List.length_cons] at h ⊢; omega) (by simp)
      show (if i < total - 1 then "  " ++ dumpsEntry e ++ ",\n"
            else "  " ++ dumpsEntry e ++ "\n") ++
          writeEntries (e2 :: es2) (i + 1) total = _
      rw [if_pos hlt, ih2]
      simp only [List.map_cons, commaJoinLines, String.append_assoc]

/-- C1: for every non-empty entry list, the destination content is the
opening bracket and newline, the two-space-indented single-line JSON entry
lines with `w` before `f` and compact separators, a comma after every entry
line but the last, and after the last entry a closing bracket with no
trailing newline; characters at or above code point 128 are emitted
literally, not escaped. -/
theorem c1_output_format (entries : List Entry) (c : Char)
    (h : entries ≠ []) (hc : 128 ≤ c.toNat) :
    writeJson entries =
      "[\n" ++ commaJoinLines (entries.map fun e => "  " ++ dumpsEntry e) ++
        "\n]" ∧
    escapeChar c = String.singleton c := by
  constructor
  · show "[\n" ++ writeEntries entries 0 entries.length ++ "]" = _
    rw [writeEntries_eq_commaJoin entries 0 entries.length (by omega) h]
    simp only [String.append_assoc]
    rfl
  · have h1 : ¬ c = '"' := by rintro rfl; exact absurd hc (by decide)
    have h2 : ¬ c = '\\' := by rintro rfl; exact absurd hc (by decide)
    have h3 : ¬ c.toNat = 8 := by omega
    have h4 : ¬ c = '\t' := by rintro rfl; exact absurd hc (by decide)
    have h5 : ¬ c = '\n' := by rintro rfl; exact absurd hc (by decide)
    have h6 : ¬ c.toNat = 12 := by omega
    have h7 : ¬ c = '\r' := by rintro rfl; exact absurd hc (by decide)
    have h8 : ¬ c.toNat < 32 := by omega
    simp [escapeChar, h1, h2, h3, h4, h5, h6, h7, h8]

/-- Witness for C1 at the spec's own example list and the non-ASCII
character é. -/
theorem c1_output_format_witness :
    ([(⟨"le", 100⟩ : Entry), ⟨"la", 90⟩] ≠ []) ∧ 128 ≤ ('é').toNat ∧
    writeJson [⟨"le", 100⟩, ⟨"la", 90⟩] =
      "[\n  \x7b\"w\":\"le\",\"f\":100\x7d,\n  \x7b\"w\":\"la\",\"f\":90\x7d\n]" ∧
    escapeChar 'é' = String.singleton 'é' := by
  have h := c1_output_format [⟨"le", 100⟩, ⟨"la", 90⟩] 'é' (by decide)
    (by decide)
  exact ⟨by decide, by decide, h.1.trans (by decide), h.2⟩

/-- C2 (counterexample): with a filesystem where every source exists but the
first destination cannot be written, running the two-job list records no
event for the second job — the run aborts — even though the second job run
on its own succeeds and writes its output. So a write failure does not abort
only that job. -/
theorem c2_counterexample :
    runJobs fsWriteFail
        [("en_50k.txt", "en_base.json"), ("fr_50k.txt", "fr_base.json")] =
      ([], some (pathJoin baseDir ("en_base.json"))) ∧
    runJobs fsWriteFail [("fr_50k.txt", "fr_base.json")] =
      ([RunEvent.wrote (pathJoin baseDir ("fr_base.json"))
          (convertOutput [("a 1")])], none) := by
  exact ⟨rfl, rfl⟩

/-- C2 (amended): if a job's source exists but its destination cannot be
opened for writing, the error propagates out of the job loop: the run ends
at that job with no further events, so no subsequent configured job
executes. -/
theorem c2_write_failure_aborts_run (fs : FS) (src dst : String)
    (rest : List (String × String))
    (h1 : fs.present (pathJoin baseDir src) = true)
    (h2 : fs.writeOk (pathJoin baseDir dst) = false) :
    runJobs fs ((src, dst) :: rest) = ([], some (pathJoin baseDir dst)) := by
  simp [runJobs, h1, h2]

/-- Witness for the amended C2 at a concrete filesystem and job list. -/
theorem c2_write_failure_aborts_run_witness :
    fsWriteFail.present (pathJoin baseDir ("de_50k.txt")) = true ∧
    fsWriteFail.writeOk (pathJoin baseDir ("en_base.json")) = false ∧
    runJobs fsWriteFail
        [("de_50k.txt", "en_base.json"), ("pl_50k.txt", "pl_base.json")] =
      ([], some (pathJoin baseDir ("en_base.json"))) := by
  exact ⟨rfl, rfl,
    c2_write_failure_aborts_run fsWriteFail ("de_50k.txt") ("en_base.json")
      [("pl_50k.txt", "pl_base.json")] rfl rfl⟩

/-- C3: every line that strips and splits into at least two tokens whose
last token parses as an integer yields exactly one entry whose word is the
space-join of all tokens but the last and whose frequency is that integer. -/
theorem c3_valid_line_parses (l : String) (k : Int)
    (h2 : 2 ≤ (pySplit (pyStrip l)).length)
    (h3 : pyInt ((pySplit (pyStrip l)).getLastD ("")) = some k) :
    parseLine l =
      .entry ⟨String.intercalate (" ") (pySplit (pyStrip l)).dropLast, k⟩ :=
  parseLine_entry_of l k h2 h3

/-- Witness for C3 at the spec's example line with an internal space in the
word. -/
theorem c3_valid_line_parses_witness :
    2 ≤ (pySplit (pyStrip ("New York 1234"))).length ∧
    pyInt ((pySplit (pyStrip ("New York 1234"))).getLastD ("")) = some 1234 ∧
    parseLine ("New York 1234") = .entry ⟨"New York", 1234⟩ := by
  refine ⟨by decide, by decide, ?_⟩
  exact (c3_valid_line_parses ("New York 1234") 1234 (by decide)
    (by decide)).trans (by decide)

/-- C4: the entries accumulated by the reading loop are exactly the
per-line parses of the valid lines, in input line order — rejected and blank
lines are dropped in place and duplicates are kept as independent entries. -/
theorem c4_order_preserved (lines : List String) :
    (parseFile lines).entries = lines.filterMap lineEntry :=
  processFrom_entries lines 1

/-- C5: whenever parsing yields zero entries, the destination content is
exactly the three bytes open bracket, newline, close bracket. -/
theorem c5_empty_output (lines : List String)
    (h : (parseFile lines).entries = []) :
    convertOutput lines = "[\n]" := by
  show writeJson (parseFile lines).entries = "[\n]"
  rw [h]
  rfl

/-- Witness for C5 on a file of blank and rejected lines only. -/
theorem c5_empty_output_witness :
    (parseFile [(""), ("  "), ("x"), ("word abc")]).entries = [] ∧
    convertOutput [(""), ("  "), ("x"), ("word abc")] = "[\n]" := by
  exact ⟨by decide, c5_empty_output [(""), ("  "), ("x"), ("word abc")]
    (by decide)⟩

/-- C6 (counterexample): for the input line consisting of one token with
surrounding whitespace, the reported malformed-line condition carries the
stripped content, which differs from the raw line content. -/
theorem c6_counterexample :
    parseFile [(" x ")] = ⟨[], [Condition.malformedLine 1 ("x")]⟩ ∧
    ("x" : String) ≠ " x " := by
  exact ⟨by decide, by decide⟩

/-- C6 (amended): a non-blank line with fewer than two tokens produces no
entry and is reported as a malformed line carrying the 1-based line number
and the whitespace-stripped line content; the surrounding lines are
processed as if the rejected line were absent (up to line numbering). -/
theorem c6_malformed_line_reported (pre post : List String) (l : String)
    (h1 : pyStrip l ≠ "") (h2 : (pySplit (pyStrip l)).length < 2) :
    parseFile (pre ++ l :: post) =
      ⟨(parseFile pre).entries ++ (processFrom (pre.length + 2) post).entries,
       (parseFile pre).warnings ++
         Condition.malformedLine (pre.length + 1) (pyStrip l) ::
           (processFrom (pre.length + 2) post).warnings⟩ := by
  have hl := parseLine_malformed_of l h1 h2
  show processFrom 1 (pre ++ l :: post) = _
  rw [processFrom_append pre (l :: post) 1]
  have hn : 1 + pre.length = pre.length + 1 := by omega
  rw [hn]
  simp only [processFrom, hl]
  have hn2 : pre.length + 1 + 1 = pre.length + 2 := by omega
  rw [hn2]
  rfl

/-- Witness for the amended C6 at a one-token line with surrounding
whitespace. -/
theorem c6_malformed_line_reported_witness :
    pyStrip (" x ") ≠ "" ∧ (pySplit (pyStrip (" x "))).length < 2 ∧
    parseFile [(" x ")] = ⟨[], [Condition.malformedLine 1 ("x")]⟩ := by
  refine ⟨by decide, by decide, ?_⟩
  exact (c6_malformed_line_reported [] [] (" x ") (by decide)
    (by decide)).trans (by decide)

/-- C7: a line with at least two tokens whose last token fails integer
parsing produces no entry and is reported as an invalid frequency carrying
the 1-based line number and the offending token; the surrounding lines are
processed as if the rejected line were absent (up to line numbering). -/
theorem c7_invalid_frequency_reported (pre post : List String) (l : String)
    (h2 : 2 ≤ (pySplit (pyStrip l)).length)
    (h3 : pyInt ((pySplit (pyStrip l)).getLastD ("")) = none) :
    parseFile (pre ++ l :: post) =
      ⟨(parseFile pre).entries ++ (processFrom (pre.length + 2) post).entries,
       (parseFile pre).warnings ++
         Condition.invalidFrequency (pre.length + 1)
             ((pySplit (pyStrip l)).getLastD ("")) ::
           (processFrom (pre.length + 2) post).warnings⟩ := by
  have hl := parseLine_invalidFreq_of l h2 h3
  show processFrom 1 (pre ++ l :: post) = _
  rw [processFrom_append pre (l :: post) 1]
  have hn : 1 + pre.length = pre.length + 1 := by omega
  rw [hn]
  simp only [processFrom, hl]
  have hn2 : pre.length + 1 + 1 = pre.length + 2 := by omega
  rw [hn2]
  rfl

/-- Witness for C7 at the spec's example line. -/
theorem c7_invalid_frequency_reported_witness :
    2 ≤ (pySplit (pyStrip ("word abc"))).length ∧
    pyInt ((pySplit (pyStrip ("word abc"))).getLastD ("")) = none ∧
    parseFile [("word abc")] = ⟨[], [Condition.invalidFrequency 1 ("abc")]⟩ := by
  refine ⟨by decide, by decide, ?_⟩
  exact (c7_invalid_frequency_reported [] [] ("word abc") (by decide)
    (by decide)).trans (by decide)

/-- C8: a job whose source path is absent is skipped after reporting the
missing path: it writes nothing, and the remaining jobs are processed
exactly as they would be on their own. -/
theorem c8_missing_source_skips (fs : FS) (src dst : String)
    (rest : List (String × String))
    (h : fs.present (pathJoin baseDir src) = false) :
    runJobs fs ((src, dst) :: rest) =
      (RunEvent.sourceNotFound (pathJoin baseDir src) :: (runJobs fs rest).1,
       (runJobs fs rest).2) := by
  simp [runJobs, h]

/-- Witness for C8: the first source is missing, the second job still runs
and writes its output. -/
theorem c8_missing_source_skips_witness :
    fsNoSource.present (pathJoin baseDir ("en_50k.txt")) = false ∧
    runJobs fsNoSource
        [("en_50k.txt", "en_base.json"), ("fr_50k.txt", "fr_base.json")] =
      (RunEvent.sourceNotFound (pathJoin baseDir ("en_50k.txt")) ::
         (runJobs fsNoSource [("fr_50k.txt", "fr_base.json")]).1,
       (runJobs fsNoSource [("fr_50k.txt", "fr_base.json")]).2) := by
  exact ⟨rfl, c8_missing_source_skips fsNoSource ("en_50k.txt")
    ("en_base.json") [("fr_50k.txt", "fr_base.json")] rfl⟩

/-- C9: a line whose last token parses to a negative integer is accepted and
yields an entry with that negative frequency — no non-negativity check
rejects it. -/
theorem c9_negative_frequency_accepted (l : String) (k : Int)
    (h2 : 2 ≤ (pySplit (pyStrip l)).length)
    (h3 : pyInt ((pySplit (pyStrip l)).getLastD ("")) = some k)
    (h4 : k < 0) :
    parseLine l =
      .entry ⟨String.intercalate (" ") (pySplit (pyStrip l)).dropLast, k⟩ :=
  parseLine_entry_of l k h2 h3

/-- Witness for C9 at the claim's example token -5. -/
theorem c9_negative_frequency_accepted_witness :
    2 ≤ (pySplit (pyStrip ("word -5"))).length ∧
    pyInt ((pySplit (pyStrip ("word -5"))).getLastD ("")) = some (-5) ∧
    ((-5 : Int) < 0) ∧
    parseLine ("word -5") = .entry ⟨"word", -5⟩ := by
  refine ⟨by decide, by decide, by decide, ?_⟩
  exact (c9_negative_frequency_accepted ("word -5") (-5) (by decide)
    (by decide) (by decide)).trans (by decide)

/-- C10: frequency acceptance is strictly more permissive than plain base-10
literals, following Python int(): a leading plus sign, an underscore between
digits, and non-ASCII decimal digits (here Arabic-Indic four-two, i.e. 42)
are all accepted and produce entries. -/
theorem c10_int_permissiveness :
    parseLine ("word +5") = .entry ⟨"word", 5⟩ ∧
    parseLine ("word 1_000") = .entry ⟨"word", 1000⟩ ∧
    parseLine ("word ٤٢") = .entry ⟨"word", 42⟩ := by
  exact ⟨by decide, by decide, by decide⟩

end Pastiera
